import Mathlib

/-!
# Verification of the group-chat bot in `bot.py`

A shallow embedding of the message-routing and response-generation core of
the bot: the group message handler `handle_group_message`, the generator
`generate_samuil_answer` with its bounded dialog history, the system-prompt
builder `build_samuil_system_prompt`, the private echo handler
`echo_private`, the night predicate `is_night_time` and the job-scheduling
guard `setup_scheduled_jobs`.

Conventions of the embedding:
* External effects are oracles: the OpenAI completion call is a parameter
  `backend : Option String` (`some t` means the call succeeded and the
  post-`strip()` message content is `t`; `none` covers a raised exception or
  a malformed response).  `random.random()` is a parameter `draw : ℚ` and
  `random.choice` is a parameter index into the pool.
* Global mutable dictionaries (`dialog_history`, `daily_summary_log`) are a
  `BotState` record of total functions with the `defaultdict` default `[]`;
  handlers take the state in and return the new state.
* Sending a message to the chat is recorded in the `sent` field of the
  handler result; `none` means nothing was sent.  Handlers are total Lean
  functions: the Python code converts generation-backend errors into
  `(None, err)` pairs instead of raising.
* Prompt fragments that only shape the backend input (weekday names, time
  context, weather clauses) are elided; the system prompt, whose content
  claims speak about, is embedded literally and recorded in the result.
-/

namespace Bot

/-- Embedding of Python `str.lower` restricted to the alphabets the bot
compares: ASCII `A`-`Z` and the Cyrillic range `А`-`Я` plus `Ё`.  Every
other character is left unchanged, which agrees with Python on all
characters that occur in the bot comparison tokens. -/
def lowerChar (c : Char) : Char :=
  if 65 ≤ c.toNat ∧ c.toNat ≤ 90 then Char.ofNat (c.toNat + 32)
  else if 1040 ≤ c.toNat ∧ c.toNat ≤ 1071 then Char.ofNat (c.toNat + 32)
  else if c.toNat = 1025 then Char.ofNat 1105
  else c

/-- `text.lower()` on a whole string. -/
def str_lower (s : String) : String :=
  ⟨s.data.map lowerChar⟩

/-- Python substring test `needle in haystack` on character lists. -/
def isSubList (needle haystack : List Char) : Bool :=
  match haystack with
  | [] => needle.isEmpty
  | _ :: t => needle.isPrefixOf haystack || isSubList needle t

/-- Python substring test `needle in haystack` on strings. -/
def containsSub (needle haystack : String) : Bool :=
  isSubList needle.data haystack.data

/-- One chat turn as stored in `dialog_history` and sent to the backend:
the Python dict with keys `role` and `content`. -/
structure Turn where
  role : String
  content : String
  deriving DecidableEq

/-- The `GROUP_CHAT_ID` environment value: absent or empty (falsy, no
filter), set but not parseable as an integer (the `ValueError` branch
ignores the filter), or set to a numeric chat id. -/
inductive GroupChatCfg where
  | unset : GroupChatCfg
  | notNumeric : GroupChatCfg
  | target : Int → GroupChatCfg
  deriving DecidableEq

/-- Environment configuration read at module load. `targetUserId` embeds
`TARGET_USER_ID` (`0` when absent, which Python treats as falsy);
`clientConfigured` embeds whether `OPENAI_API_KEY` was set, i.e. whether
`client` is not `None`. -/
structure Config where
  groupChatId : GroupChatCfg
  targetUserId : Int
  clientConfigured : Bool

/-- The fields of an incoming group update the handler reads.
`isReplyToBot` embeds `message.reply_to_message is not None and
message.reply_to_message.from_user.id == context.bot.id`; `authorName`
embeds `user.username or user.full_name or str(user_id)`. -/
structure Msg where
  chatId : Int
  userId : Int
  text : String
  isReplyToBot : Bool
  authorName : String

/-- The random and network effects one handler invocation consumes:
the value of `random.random()`, the index `random.choice` draws in the
fallback pool, and the outcome of the OpenAI completion call. -/
structure Rand where
  draw : ℚ
  choiceIdx : Nat
  backend : Option String

/-- The global mutable dictionaries: `dialog_history` (a `defaultdict`
from `(chat_id, user_id)` to a turn list) and `daily_summary_log` (a
`defaultdict` from an ISO date string to logged lines). -/
structure BotState where
  dialogHistory : Int × Int → List Turn
  dailySummaryLog : String → List String

/-- The state at process start: both dictionaries empty. -/
def initial_bot_state : BotState :=
  ⟨fun _ => [], fun _ => []⟩

/-- Which branch of `handle_group_message` produced the result: the early
returns (`noResponse`), the addressed branch calling
`generate_samuil_answer`, the identity branch calling
`generate_sarcastic_reply_for_maxim`, or the 20% random skip inside the
identity branch. -/
inductive Branch where
  | noResponse : Branch
  | addressed : Branch
  | sarcastic : Branch
  | skipped : Branch
  deriving DecidableEq

/-- What one invocation of `handle_group_message` did: the text passed to
`message.chat.send_message` (if any), the new global state, the branch
taken, and the system prompt supplied to the backend in the addressed
branch. -/
structure HandlerResult where
  sent : Option String
  state : BotState
  branch : Branch
  systemPrompt : Option String

/-- `call_openai_chat`: returns `(text, error)`.  `client is None` yields
the configuration error; otherwise the oracle decides between a stripped
completion text and an exception message. -/
def call_openai_chat (clientConfigured : Bool) (backend : Option String) :
    Option String × Option String :=
  if clientConfigured = false then
    (none, some "OpenAI client is not configured (no API key).")
  else
    match backend with
    | some t => (some t, none)
    | none => (none, some "Error calling OpenAI")

/-- The persona block `base` of `build_samuil_system_prompt`. -/
def samuil_base : String :=
  "Ты — Самуил, саркастичный, но в целом доброжелательный телеграм-бот.\n" ++
    "**Твоя личность:**\n" ++
    "- Говоришь по-русски, на \x27ты\x27\n" ++
    "- Ироничный, остроумный, иногда слегка колкий\n" ++
    "- Не токсичный, не злобный, не грубый\n" ++
    "- Не злоупотребляешь эмодзи (максимум 1-2 в редких случаях)\n" ++
    "- Отвечаешь естественно, как человек в чате\n\n"

/-- The biography block `maxim_ctx` of `build_samuil_system_prompt`. -/
def maxim_ctx : String :=
  "=== КОНТЕКСТ ПРО МАКСИМА ===\n" ++
    "**Базовые факты (для тонких намёков, не для перечисления):**\n" ++
    "- Возраст: почти 40, никогда не был женат\n" ++
    "- Мама активно ждёт внуков, а он у неё единственный\n" ++
    "- Бывший друг Желнин уехал из Австралии, оставив его без компании\n" ++
    "- Считает себя гениальным и идеальным, но почему-то одинок\n" ++
    "- Ищет юную девушку (значительно моложе), но не особо успешно\n\n" ++
    "**Стили иронии для ответов (выбирай один случайно):**\n" ++
    "1. **Псевдосочувствие**: Притворное сочувствие с язвинкой («Бедный Максим...»)\n" ++
    "2. **Контрастная ирония**: Игра на разрыве между самооценкой и реальностью\n" ++
    "3. **Абсурдное сравнение**: Сравнение с чем-то нелепым или гиперболизированным\n" ++
    "4. **Философская констатация**: Констатация факта с намёком на глубокий смысл\n" ++
    "5. **Вопрос-подколка**: Вопрос, который содержит подвох\n" ++
    "6. **Короткая ёмкость**: Лаконичный, меткий комментарий\n" ++
    "**Примеры разных стилей (для вдохновения, не копируй дословно):**\n" ++
    "• «Ах, наш местный гений снова в строю. Жаль, что строю из одного человека.» (контраст)\n" ++
    "• «Ты как редкая книга: все слышали, но никто не прочитал до конца.» (сравнение)\n" ++
    "• «Мама, наверное, гордится. Ну, или хотя бы надеется.» (псевдосочувствие)\n" ++
    "• «Вечер, одиночество, мысли о вечном... и о юных соседках.» (философский)\n" ++
    "• «Скажи, а твой идеальный образ себя включает кого-то рядом? Просто интересно.» (вопрос)\n\n" ++
    "**Важно:**\n" ++
    "- Используй только 1-2 ключевых факта за раз\n" ++
    "- Не перечисляй все факты подряд\n" ++
    "- Ирония должна быть лёгкой, интеллигентной\n" ++
    "- Шутки должны быть основаны на фактах, а не на выдумке\n"

/-- `build_samuil_system_prompt`: the base persona, extended with the
Maxim biography block exactly when `include_maxim_context` is set. -/
def build_samuil_system_prompt (includeMaximContext : Bool) : String :=
  if includeMaximContext = false then samuil_base
  else samuil_base ++ maxim_ctx

/-- The fallback pool of the addressed (Q&A) branch. -/
def samuil_qa_fallbacks : List String :=
  ["Сегодня нейросети что-то приуныли. Попробуй позже.",
   "Мой саркастический модуль на перезагрузке.",
   "Иногда даже мне нечего сказать. Вот так.",
   "Попробуй переформулировать, а то я сегодня в задумчивом настроении."]

/-- The fallback pool of the sarcastic-comment branch. -/
def maxim_fallbacks : List String :=
  ["Максим, я даже не знаю, что сказать… Только ты мог такое написать.",
   "Вот это поворот. Даже мой сарказм не справляется.",
   "Интересно. Но не настолько, чтобы я нашёл, что ответить.",
   "Продолжай в том же духе, а я пока подумаю над ответом."]

/-- `random.choice(pool)` with the drawn index supplied by the oracle,
reduced modulo the pool size.  The pools are non-empty, so the default is
never used. -/
def random_choice (pool : List String) (i : Nat) : String :=
  pool.getD (i % pool.length) ""

/-- The result of `generate_samuil_answer`: the `(text, err)` pair it
returns, the new value of `dialog_history[key]`, and the system prompt it
put at the head of the backend message list. -/
structure GenResult where
  text : Option String
  err : Option String
  history : List Turn
  systemPrompt : String

/-- `generate_samuil_answer`.  Builds the system prompt (the biography is
included when the sender is the target user or the lower-cased text
mentions Maxim), calls the backend, and on success appends the user and
assistant turns to the history, keeping only the last 30 entries.  The
weekday/time/weather context messages only extend the backend input and
are elided. -/
def generate_samuil_answer (cfg : Config) (userId : Int) (userText : String)
    (history : List Turn) (backend : Option String) : GenResult :=
  let includeMaxim : Bool :=
    (userId == cfg.targetUserId) || containsSub "максим" (str_lower userText)
  let systemPrompt := build_samuil_system_prompt includeMaxim
  let r := call_openai_chat cfg.clientConfigured backend
  match r.1 with
  | none => ⟨none, r.2, history, systemPrompt⟩
  | some t =>
      let h := history ++ [⟨"user", userText⟩, ⟨"assistant", t⟩]
      let h2 := if 30 < h.length then h.drop (h.length - 30) else h
      ⟨some t, none, h2, systemPrompt⟩

/-- `generate_sarcastic_reply_for_maxim`: builds a fixed prompt (elided —
it only shapes the backend input) and returns the backend call outcome. -/
def generate_sarcastic_reply_for_maxim (cfg : Config) (backend : Option String) :
    Option String × Option String :=
  call_openai_chat cfg.clientConfigured backend

/-- The `GROUP_CHAT_ID` filter at the top of `handle_group_message`:
when the value is numeric and differs from the current chat the handler
returns immediately; an unset or non-numeric value disables the filter. -/
def passes_group_filter (cfg : Config) (chatId : Int) : Bool :=
  match cfg.groupChatId with
  | GroupChatCfg.target n => chatId == n
  | _ => true

/-- `handle_group_message`.  `todayStr` embeds `date.today().isoformat()`.
Order of effects, as in the source: group filter, daily-summary logging,
the addressed branch (reply-to-bot or mention of the bot name), then the
identity branch for the target user with the 20% random skip.  The Python
literal `0.2` is embedded as the rational `mkRat 1 5`. -/
def handle_group_message (cfg : Config) (todayStr : String) (msg : Msg)
    (rand : Rand) (st : BotState) : HandlerResult :=
  if passes_group_filter cfg msg.chatId = false then
    ⟨none, st, Branch.noResponse, none⟩
  else
    let logLine := msg.authorName ++ ": " ++ msg.text
    let st1 : BotState :=
      ⟨st.dialogHistory,
       Function.update st.dailySummaryLog todayStr
         (st.dailySummaryLog todayStr ++ [logLine])⟩
    let textLower := str_lower msg.text
    if msg.isReplyToBot || containsSub "самуил" textLower then
      let key := (msg.chatId, msg.userId)
      let g := generate_samuil_answer cfg msg.userId msg.text
        (st1.dialogHistory key) rand.backend
      let st2 : BotState :=
        ⟨Function.update st1.dialogHistory key g.history, st1.dailySummaryLog⟩
      match g.text with
      | none =>
          ⟨some (random_choice samuil_qa_fallbacks rand.choiceIdx), st2,
           Branch.addressed, some g.systemPrompt⟩
      | some t => ⟨some t, st2, Branch.addressed, some g.systemPrompt⟩
    else if (cfg.targetUserId != 0) && (msg.userId == cfg.targetUserId) then
      if rand.draw < mkRat 1 5 then
        ⟨none, st1, Branch.skipped, none⟩
      else
        match (generate_sarcastic_reply_for_maxim cfg rand.backend).1 with
        | none =>
            ⟨some (random_choice maxim_fallbacks rand.choiceIdx), st1,
             Branch.sarcastic, none⟩
        | some t => ⟨some t, st1, Branch.sarcastic, none⟩
    else
      ⟨none, st1, Branch.noResponse, none⟩

/-- Telegram chat kinds as reported by `update.effective_chat.type`. -/
inductive ChatType where
  | privateChat : ChatType
  | groupChat : ChatType
  | supergroupChat : ChatType
  | channelChat : ChatType
  deriving DecidableEq

/-- `echo_private`: replies with an echo in private chats, stays silent in
every other chat kind.  The text argument models `update.message.text`,
which the handler defaults to the empty string. -/
def echo_private (chatType : ChatType) (text : Option String) : Option String :=
  if chatType ≠ ChatType.privateChat then none
  else some ("Ты написал: " ++ text.getD "")

/-- A wall-clock time of day, embedding the `hour` and `minute` fields of
a Python `datetime`. -/
structure DateTime where
  hour : Nat
  minute : Nat
  deriving DecidableEq

/-- `is_night_time`: night runs from 22:00 inclusive to 07:00 exclusive. -/
def is_night_time (dt : DateTime) : Bool :=
  22 ≤ dt.hour || dt.hour < 7

/-- A registration `job_queue.run_daily(callback, time, name)`: the job
name and the local time at which the scheduling library invokes the
callback once per calendar day. -/
structure Job where
  jobName : String
  atTime : DateTime
  deriving DecidableEq

/-- The morning-greeting registration: `good_morning_job` at 07:30. -/
def good_morning_reg : Job :=
  ⟨"good_morning_job", ⟨7, 30⟩⟩

/-- The evening-summary registration: `evening_summary_job` at 21:00. -/
def evening_summary_reg : Job :=
  ⟨"evening_summary_job", ⟨21, 0⟩⟩

/-- The scheduling state: the module-level `_jobs_scheduled` flag and the
contents of the application job queue. -/
structure SchedState where
  jobsScheduled : Bool
  jobs : List Job
  deriving DecidableEq

/-- The state at process start: flag unset, queue empty. -/
def initial_sched_state : SchedState :=
  ⟨false, []⟩

/-- `setup_scheduled_jobs`: a no-op when `_jobs_scheduled` is already set
or when the application has no job queue; otherwise it removes every
existing job, registers the two daily jobs and sets the flag. -/
def setup_scheduled_jobs (hasJobQueue : Bool) (s : SchedState) : SchedState :=
  if s.jobsScheduled then s
  else if hasJobQueue = false then s
  else ⟨true, [good_morning_reg, evening_summary_reg]⟩

set_option maxRecDepth 100000

/-- `random.choice` over a non-empty pool picks an element of the pool. -/
theorem random_choice_mem (pool : List String) (i : Nat) (h : pool ≠ []) :
    random_choice pool i ∈ pool := by
  unfold random_choice
  have hlen : 0 < pool.length := List.length_pos.mpr h
  have hmod : i % pool.length < pool.length := Nat.mod_lt _ hlen
  rw [List.getD_eq_getElem _ _ hmod]
  exact List.getElem_mem hmod

/-- The `text` component returned by `generate_samuil_answer` is exactly
the text component of the backend call. -/
theorem generate_samuil_answer_text (cfg : Config) (userId : Int)
    (userText : String) (history : List Turn) (backend : Option String) :
    (generate_samuil_answer cfg userId userText history backend).text
      = (call_openai_chat cfg.clientConfigured backend).1 := by
  unfold generate_samuil_answer
  cases h : (call_openai_chat cfg.clientConfigured backend).1 <;> simp [h]

/-- The system prompt built by `generate_samuil_answer` is decided by the
sender identity and the lower-cased mention of Maxim. -/
theorem generate_samuil_answer_systemPrompt (cfg : Config) (userId : Int)
    (userText : String) (history : List Turn) (backend : Option String) :
    (generate_samuil_answer cfg userId userText history backend).systemPrompt
      = build_samuil_system_prompt
          ((userId == cfg.targetUserId) || containsSub "максим" (str_lower userText)) := by
  unfold generate_samuil_answer
  cases h : (call_openai_chat cfg.clientConfigured backend).1 <;> simp [h]

/-- C2: when `GROUP_CHAT_ID` is configured with a numeric chat id and the
incoming message's chat differs from it, `handle_group_message` returns
without sending anything and without touching any state, for every sender
identity, text, random draw and backend outcome. -/
theorem group_filter_no_response (cfg : Config) (todayStr : String)
    (msg : Msg) (rand : Rand) (st : BotState) (n : Int)
    (hcfg : cfg.groupChatId = GroupChatCfg.target n) (hne : msg.chatId ≠ n) :
    (handle_group_message cfg todayStr msg rand st).sent = none ∧
    (handle_group_message cfg todayStr msg rand st).branch = Branch.noResponse ∧
    (handle_group_message cfg todayStr msg rand st).state = st := by
  have hfilter : passes_group_filter cfg msg.chatId = false := by
    unfold passes_group_filter
    rw [hcfg]
    simp [hne]
  unfold handle_group_message
  rw [hfilter]
  simp

/-- Witness for C2: a message in chat `6` is dropped when the configured
target chat is `5`, whoever sent it. -/
theorem group_filter_no_response_witness :
    (handle_group_message ⟨GroupChatCfg.target 5, 7, true⟩ "2026-10-12"
        ⟨6, 7, "Самуил, привет", false, "maxim"⟩ ⟨mkRat 1 2, 0, some "ок"⟩
        initial_bot_state).sent = none :=
  (group_filter_no_response ⟨GroupChatCfg.target 5, 7, true⟩ "2026-10-12"
    ⟨6, 7, "Самуил, привет", false, "maxim"⟩ ⟨mkRat 1 2, 0, some "ок"⟩
    initial_bot_state 5 rfl (by decide)).1

/-- C7: `is_night_time` holds exactly when the hour is at least 22 or
strictly below 7 — so 21:59 and 07:00 are day while 22:00 and 06:59 are
night — and both proactive jobs registered by `setup_scheduled_jobs`
(07:30 and 21:00) fire at times outside the night window. -/
theorem night_window_boundaries :
    is_night_time ⟨21, 59⟩ = false ∧ is_night_time ⟨22, 0⟩ = true ∧
    is_night_time ⟨6, 59⟩ = true ∧ is_night_time ⟨7, 0⟩ = false ∧
    (∀ dt : DateTime, is_night_time dt = true ↔ (22 ≤ dt.hour ∨ dt.hour < 7)) ∧
    (setup_scheduled_jobs true initial_sched_state).jobs.all
      (fun j => !(is_night_time j.atTime)) = true := by
  refine ⟨rfl, rfl, rfl, rfl, ?_, by decide⟩
  intro dt
  simp [is_night_time]

/-- C8: invoking `setup_scheduled_jobs` a second time leaves the
scheduling state unchanged (the `_jobs_scheduled` guard makes it a
no-op), and one invocation from the start state registers each named
daily job exactly once — so the once-per-day trigger of the scheduling
library (`run_daily`) fires each job at most once per calendar day. -/
theorem scheduled_jobs_once (q : Bool) (s : SchedState) :
    setup_scheduled_jobs q (setup_scheduled_jobs q s) = setup_scheduled_jobs q s ∧
    ((setup_scheduled_jobs true initial_sched_state).jobs.filter
        (fun j => j.jobName == "good_morning_job")).length = 1 ∧
    ((setup_scheduled_jobs true initial_sched_state).jobs.filter
        (fun j => j.jobName == "evening_summary_job")).length = 1 := by
  refine ⟨?_, by decide, by decide⟩
  unfold setup_scheduled_jobs
  by_cases h : s.jobsScheduled
  · simp [h]
  · by_cases hq : q = false
    · simp [h, hq]
    · simp [h, hq]

/-- C4: after a successful exchange the stored history is a suffix of the
old history followed by the user turn and then the assistant turn, its
length is the minimum of `old + 2` and `30`, and the assistant turn is
its last element — i.e. the two turns are appended in order and, past 30
entries, the oldest entries are dropped, keeping the 30 most recent in
insertion order. -/
theorem dialog_history_bound (cfg : Config) (userId : Int) (userText : String)
    (hist : List Turn) (t : String) (hc : cfg.clientConfigured = true) :
    (generate_samuil_answer cfg userId userText hist (some t)).history.length
        = min (hist.length + 2) 30 ∧
    (generate_samuil_answer cfg userId userText hist (some t)).history.getLast?
        = some ⟨"assistant", t⟩ ∧
    (generate_samuil_answer cfg userId userText hist (some t)).history
        <:+ hist ++ [⟨"user", userText⟩, ⟨"assistant", t⟩] := by
  have hcall : (call_openai_chat cfg.clientConfigured (some t)).1 = some t := by
    unfold call_openai_chat
    rw [hc]
    simp
  unfold generate_samuil_answer
  simp only [hcall]
  by_cases hlen :
      30 < (hist ++ [(⟨"user", userText⟩ : Turn), ⟨"assistant", t⟩]).length
  · rw [if_pos hlen]
    have hk : (hist ++ [(⟨"user", userText⟩ : Turn), ⟨"assistant", t⟩]).length - 30
        ≤ (hist ++ [(⟨"user", userText⟩ : Turn)]).length := by
      simp only [List.length_append, List.length_cons, List.length_nil] at hlen ⊢
      omega
    refine ⟨?_, ?_, List.drop_suffix _ _⟩
    · rw [List.length_drop]
      simp only [List.length_append, List.length_cons, List.length_nil] at hlen ⊢
      omega
    · have hsplit :
          hist ++ [(⟨"user", userText⟩ : Turn), ⟨"assistant", t⟩]
            = (hist ++ [(⟨"user", userText⟩ : Turn)]) ++ [(⟨"assistant", t⟩ : Turn)] := by
        simp
      rw [hsplit] at hk ⊢
      rw [List.drop_append_of_le_length hk]
      exact List.getLast?_concat _
  · rw [if_neg hlen]
    have hsplit :
        hist ++ [(⟨"user", userText⟩ : Turn), ⟨"assistant", t⟩]
          = (hist ++ [(⟨"user", userText⟩ : Turn)]) ++ [(⟨"assistant", t⟩ : Turn)] := by
      simp
    refine ⟨?_, ?_, List.suffix_refl _⟩
    · simp only [List.length_append, List.length_cons, List.length_nil] at hlen ⊢
      omega
    · rw [hsplit]
      exact List.getLast?_concat _

/-- Witness for C4: a successful exchange on an empty history stores the
two turns, the assistant turn last. -/
theorem dialog_history_bound_witness :
    (generate_samuil_answer ⟨GroupChatCfg.unset, 7, true⟩ 1 "привет" [] (some "ответ")).history.length
        = min (List.length ([] : List Turn) + 2) 30 ∧
    (generate_samuil_answer ⟨GroupChatCfg.unset, 7, true⟩ 1 "привет" [] (some "ответ")).history.getLast?
        = some ⟨"assistant", "ответ"⟩ ∧
    (generate_samuil_answer ⟨GroupChatCfg.unset, 7, true⟩ 1 "привет" [] (some "ответ")).history
        <:+ [] ++ [⟨"user", "привет"⟩, ⟨"assistant", "ответ"⟩] :=
  dialog_history_bound ⟨GroupChatCfg.unset, 7, true⟩ 1 "привет" [] "ответ" rfl

/-- C5: on a failed backend call `generate_samuil_answer` leaves the
dialog history untouched — neither the user turn nor any failure text is
stored — while on success the new history is a (possibly front-trimmed)
tail of the old history with the user turn and the assistant turn
appended. -/
theorem dialog_history_on_failure (cfg : Config) (userId : Int)
    (userText : String) (hist : List Turn) (backend : Option String) :
    ((call_openai_chat cfg.clientConfigured backend).1 = none →
      (generate_samuil_answer cfg userId userText hist backend).history = hist) ∧
    (∀ t, (call_openai_chat cfg.clientConfigured backend).1 = some t →
      ∃ k, k ≤ hist.length ∧
        (generate_samuil_answer cfg userId userText hist backend).history
          = hist.drop k ++ [⟨"user", userText⟩, ⟨"assistant", t⟩]) := by
  constructor
  · intro h
    unfold generate_samuil_answer
    simp only [h]
  · intro t h
    unfold generate_samuil_answer
    simp only [h]
    by_cases hlen :
        30 < (hist ++ [(⟨"user", userText⟩ : Turn), ⟨"assistant", t⟩]).length
    · rw [if_pos hlen]
      simp only [List.length_append, List.length_cons, List.length_nil] at hlen
      refine ⟨hist.length + 2 - 30, by omega, ?_⟩
      have hk : (hist ++ [(⟨"user", userText⟩ : Turn), ⟨"assistant", t⟩]).length - 30
          ≤ hist.length := by
        simp only [List.length_append, List.length_cons, List.length_nil]
        omega
      rw [List.drop_append_of_le_length hk]
      congr 1
      simp only [List.length_append, List.length_cons, List.length_nil]
    · rw [if_neg hlen]
      exact ⟨0, Nat.zero_le _, by simp⟩

/-- Witness for C5: with no API key configured the backend call fails and
a one-turn history is returned unchanged; with the client configured the
same exchange appends both turns. -/
theorem dialog_history_on_failure_witness :
    ((call_openai_chat false (some "ответ")).1 = none →
      (generate_samuil_answer ⟨GroupChatCfg.unset, 7, false⟩ 1 "эй" [⟨"user", "до"⟩]
          (some "ответ")).history = [⟨"user", "до"⟩]) ∧
    (∀ t, (call_openai_chat false (some "ответ")).1 = some t →
      ∃ k, k ≤ [(⟨"user", "до"⟩ : Turn)].length ∧
        (generate_samuil_answer ⟨GroupChatCfg.unset, 7, false⟩ 1 "эй" [⟨"user", "до"⟩]
            (some "ответ")).history
          = [(⟨"user", "до"⟩ : Turn)].drop k ++ [⟨"user", "эй"⟩, ⟨"assistant", t⟩]) :=
  dialog_history_on_failure ⟨GroupChatCfg.unset, 7, false⟩ 1 "эй" [⟨"user", "до"⟩] (some "ответ")

/-- The state after the daily-summary logging step of
`handle_group_message`. -/
def logged_state (todayStr : String) (msg : Msg) (st : BotState) : BotState :=
  ⟨st.dialogHistory,
   Function.update st.dailySummaryLog todayStr
     (st.dailySummaryLog todayStr ++ [msg.authorName ++ ": " ++ msg.text])⟩

/-- Reduction: a message filtered out by the configured group chat id. -/
theorem handle_red_filtered (cfg : Config) (todayStr : String) (msg : Msg)
    (rand : Rand) (st : BotState)
    (hf : passes_group_filter cfg msg.chatId = false) :
    handle_group_message cfg todayStr msg rand st
      = ⟨none, st, Branch.noResponse, none⟩ := by
  unfold handle_group_message
  rw [hf]
  simp

/-- Reduction: the addressed branch when the generation call fails. -/
theorem handle_red_addressed_fail (cfg : Config) (todayStr : String) (msg : Msg)
    (rand : Rand) (st : BotState)
    (hf : passes_group_filter cfg msg.chatId = true)
    (hcond : (msg.isReplyToBot || containsSub "самуил" (str_lower msg.text)) = true)
    (hgt : (generate_samuil_answer cfg msg.userId msg.text
        (st.dialogHistory (msg.chatId, msg.userId)) rand.backend).text = none) :
    handle_group_message cfg todayStr msg rand st
      = ⟨some (random_choice samuil_qa_fallbacks rand.choiceIdx),
         ⟨Function.update st.dialogHistory (msg.chatId, msg.userId)
            (generate_samuil_answer cfg msg.userId msg.text
              (st.dialogHistory (msg.chatId, msg.userId)) rand.backend).history,
          (logged_state todayStr msg st).dailySummaryLog⟩,
         Branch.addressed,
         some (generate_samuil_answer cfg msg.userId msg.text
            (st.dialogHistory (msg.chatId, msg.userId)) rand.backend).systemPrompt⟩ := by
  unfold handle_group_message logged_state
  simp [hf, hcond, hgt]

/-- Reduction: the addressed branch when the generation call succeeds. -/
theorem handle_red_addressed_ok (cfg : Config) (todayStr : String) (msg : Msg)
    (rand : Rand) (st : BotState) (t : String)
    (hf : passes_group_filter cfg msg.chatId = true)
    (hcond : (msg.isReplyToBot || containsSub "самуил" (str_lower msg.text)) = true)
    (hgt : (generate_samuil_answer cfg msg.userId msg.text
        (st.dialogHistory (msg.chatId, msg.userId)) rand.backend).text = some t) :
    handle_group_message cfg todayStr msg rand st
      = ⟨some t,
         ⟨Function.update st.dialogHistory (msg.chatId, msg.userId)
            (generate_samuil_answer cfg msg.userId msg.text
              (st.dialogHistory (msg.chatId, msg.userId)) rand.backend).history,
          (logged_state todayStr msg st).dailySummaryLog⟩,
         Branch.addressed,
         some (generate_samuil_answer cfg msg.userId msg.text
            (st.dialogHistory (msg.chatId, msg.userId)) rand.backend).systemPrompt⟩ := by
  unfold handle_group_message logged_state
  simp [hf, hcond, hgt]

/-- Reduction: the identity branch when the random draw skips. -/
theorem handle_red_skip (cfg : Config) (todayStr : String) (msg : Msg)
    (rand : Rand) (st : BotState)
    (hf : passes_group_filter cfg msg.chatId = true)
    (hcond : (msg.isReplyToBot || containsSub "самуил" (str_lower msg.text)) = false)
    (hmx : ((cfg.targetUserId != 0) && (msg.userId == cfg.targetUserId)) = true)
    (hdraw : rand.draw < mkRat 1 5) :
    handle_group_message cfg todayStr msg rand st
      = ⟨none, logged_state todayStr msg st, Branch.skipped, none⟩ := by
  unfold handle_group_message logged_state
  simp [hf, hcond, hmx, hdraw]

/-- Reduction: the identity branch when the draw does not skip and the
generation call fails. -/
theorem handle_red_sarcastic_fail (cfg : Config) (todayStr : String) (msg : Msg)
    (rand : Rand) (st : BotState)
    (hf : passes_group_filter cfg msg.chatId = true)
    (hcond : (msg.isReplyToBot || containsSub "самуил" (str_lower msg.text)) = false)
    (hmx : ((cfg.targetUserId != 0) && (msg.userId == cfg.targetUserId)) = true)
    (hdraw : ¬ rand.draw < mkRat 1 5)
    (hgen : (call_openai_chat cfg.clientConfigured rand.backend).1 = none) :
    handle_group_message cfg todayStr msg rand st
      = ⟨some (random_choice maxim_fallbacks rand.choiceIdx),
         logged_state todayStr msg st, Branch.sarcastic, none⟩ := by
  unfold handle_group_message logged_state generate_sarcastic_reply_for_maxim
  simp [hf, hcond, hmx, hdraw, hgen]

/-- Reduction: the identity branch when the draw does not skip and the
generation call succeeds. -/
theorem handle_red_sarcastic_ok (cfg : Config) (todayStr : String) (msg : Msg)
    (rand : Rand) (st : BotState) (t : String)
    (hf : passes_group_filter cfg msg.chatId = true)
    (hcond : (msg.isReplyToBot || containsSub "самуил" (str_lower msg.text)) = false)
    (hmx : ((cfg.targetUserId != 0) && (msg.userId == cfg.targetUserId)) = true)
    (hdraw : ¬ rand.draw < mkRat 1 5)
    (hgen : (call_openai_chat cfg.clientConfigured rand.backend).1 = some t) :
    handle_group_message cfg todayStr msg rand st
      = ⟨some t, logged_state todayStr msg st, Branch.sarcastic, none⟩ := by
  unfold handle_group_message logged_state generate_sarcastic_reply_for_maxim
  simp [hf, hcond, hmx, hdraw, hgen]

/-- Reduction: a message that is neither addressed nor from the target
user is only logged. -/
theorem handle_red_silent (cfg : Config) (todayStr : String) (msg : Msg)
    (rand : Rand) (st : BotState)
    (hf : passes_group_filter cfg msg.chatId = true)
    (hcond : (msg.isReplyToBot || containsSub "самуил" (str_lower msg.text)) = false)
    (hmx : ((cfg.targetUserId != 0) && (msg.userId == cfg.targetUserId)) = false) :
    handle_group_message cfg todayStr msg rand st
      = ⟨none, logged_state todayStr msg st, Branch.noResponse, none⟩ := by
  unfold handle_group_message logged_state
  simp [hf, hcond, hmx]

/-- C1: a group message that contains the bot name (case-insensitive
substring) or replies to a bot message never reaches the identity-based
sarcastic branch, and — whenever the group filter lets the message
through — it takes the addressed branch (`generate_samuil_answer`), even
when the sender is the configured primary subject. -/
theorem addressed_branch_priority (cfg : Config) (todayStr : String)
    (msg : Msg) (rand : Rand) (st : BotState)
    (haddr : msg.isReplyToBot = true ∨ containsSub "самуил" (str_lower msg.text) = true) :
    (handle_group_message cfg todayStr msg rand st).branch ≠ Branch.sarcastic ∧
    (passes_group_filter cfg msg.chatId = true →
      (handle_group_message cfg todayStr msg rand st).branch = Branch.addressed) := by
  have hcond : (msg.isReplyToBot || containsSub "самуил" (str_lower msg.text)) = true := by
    rcases haddr with h | h <;> simp [h]
  cases hf : passes_group_filter cfg msg.chatId
  · rw [handle_red_filtered cfg todayStr msg rand st hf]
    exact ⟨by simp, by simp⟩
  · cases hgt : (generate_samuil_answer cfg msg.userId msg.text
        (st.dialogHistory (msg.chatId, msg.userId)) rand.backend).text
    · rw [handle_red_addressed_fail cfg todayStr msg rand st hf hcond hgt]
      exact ⟨by simp, fun _ => rfl⟩
    · rw [handle_red_addressed_ok cfg todayStr msg rand st _ hf hcond hgt]
      exact ⟨by simp, fun _ => rfl⟩

/-- Witness for C1: a mention message sent by the primary subject himself
takes the addressed branch, not the sarcastic one. -/
theorem addressed_branch_priority_witness :
    (handle_group_message ⟨GroupChatCfg.unset, 7, true⟩ "2026-10-12"
        ⟨5, 7, "Самуил, как дела?", false, "maxim"⟩ ⟨mkRat 1 2, 0, some "норм"⟩
        initial_bot_state).branch ≠ Branch.sarcastic ∧
    (passes_group_filter ⟨GroupChatCfg.unset, 7, true⟩ (5 : Int) = true →
      (handle_group_message ⟨GroupChatCfg.unset, 7, true⟩ "2026-10-12"
          ⟨5, 7, "Самуил, как дела?", false, "maxim"⟩ ⟨mkRat 1 2, 0, some "норм"⟩
          initial_bot_state).branch = Branch.addressed) :=
  addressed_branch_priority ⟨GroupChatCfg.unset, 7, true⟩ "2026-10-12"
    ⟨5, 7, "Самуил, как дела?", false, "maxim"⟩ ⟨mkRat 1 2, 0, some "норм"⟩
    initial_bot_state (Or.inr (by decide))

/-- C3: when the generation backend call fails (client not configured,
exception, or malformed response), whichever responding branch the handler
is in sends a string drawn from that branch's fixed pre-written fallback
pool; no exception reaches the caller (the handler is total and the error
is reduced to the `(None, err)` pair). -/
theorem generation_failure_fallback (cfg : Config) (todayStr : String)
    (msg : Msg) (rand : Rand) (st : BotState)
    (hfail : (call_openai_chat cfg.clientConfigured rand.backend).1 = none) :
    ((handle_group_message cfg todayStr msg rand st).branch = Branch.addressed →
      (handle_group_message cfg todayStr msg rand st).sent
          = some (random_choice samuil_qa_fallbacks rand.choiceIdx) ∧
      random_choice samuil_qa_fallbacks rand.choiceIdx ∈ samuil_qa_fallbacks) ∧
    ((handle_group_message cfg todayStr msg rand st).branch = Branch.sarcastic →
      (handle_group_message cfg todayStr msg rand st).sent
          = some (random_choice maxim_fallbacks rand.choiceIdx) ∧
      random_choice maxim_fallbacks rand.choiceIdx ∈ maxim_fallbacks) := by
  have hmem1 : random_choice samuil_qa_fallbacks rand.choiceIdx ∈ samuil_qa_fallbacks :=
    random_choice_mem _ _ (by simp [samuil_qa_fallbacks])
  have hmem2 : random_choice maxim_fallbacks rand.choiceIdx ∈ maxim_fallbacks :=
    random_choice_mem _ _ (by simp [maxim_fallbacks])
  cases hf : passes_group_filter cfg msg.chatId
  · rw [handle_red_filtered cfg todayStr msg rand st hf]
    exact ⟨by simp, by simp⟩
  · cases hcond : (msg.isReplyToBot || containsSub "самуил" (str_lower msg.text))
    · cases hmx : ((cfg.targetUserId != 0) && (msg.userId == cfg.targetUserId))
      · rw [handle_red_silent cfg todayStr msg rand st hf hcond hmx]
        exact ⟨by simp, by simp⟩
      · by_cases hdraw : rand.draw < mkRat 1 5
        · rw [handle_red_skip cfg todayStr msg rand st hf hcond hmx hdraw]
          exact ⟨by simp, by simp⟩
        · rw [handle_red_sarcastic_fail cfg todayStr msg rand st hf hcond hmx hdraw hfail]
          exact ⟨by simp, fun _ => ⟨rfl, hmem2⟩⟩
    · have hgt : (generate_samuil_answer cfg msg.userId msg.text
          (st.dialogHistory (msg.chatId, msg.userId)) rand.backend).text = none := by
        rw [generate_samuil_answer_text]
        exact hfail
      rw [handle_red_addressed_fail cfg todayStr msg rand st hf hcond hgt]
      exact ⟨fun _ => ⟨rfl, hmem1⟩, by simp⟩

/-- Witness for C3: with no API key configured, a mention message gets
the second Q&A fallback string. -/
theorem generation_failure_fallback_witness :
    ((handle_group_message ⟨GroupChatCfg.unset, 7, false⟩ "2026-10-12"
        ⟨5, 1, "самуил!", false, "u"⟩ ⟨mkRat 1 2, 1, some "x"⟩
        initial_bot_state).branch = Branch.addressed →
      (handle_group_message ⟨GroupChatCfg.unset, 7, false⟩ "2026-10-12"
          ⟨5, 1, "самуил!", false, "u"⟩ ⟨mkRat 1 2, 1, some "x"⟩
          initial_bot_state).sent
          = some (random_choice samuil_qa_fallbacks 1) ∧
      random_choice samuil_qa_fallbacks 1 ∈ samuil_qa_fallbacks) ∧
    ((handle_group_message ⟨GroupChatCfg.unset, 7, false⟩ "2026-10-12"
        ⟨5, 1, "самуил!", false, "u"⟩ ⟨mkRat 1 2, 1, some "x"⟩
        initial_bot_state).branch = Branch.sarcastic →
      (handle_group_message ⟨GroupChatCfg.unset, 7, false⟩ "2026-10-12"
          ⟨5, 1, "самуил!", false, "u"⟩ ⟨mkRat 1 2, 1, some "x"⟩
          initial_bot_state).sent
          = some (random_choice maxim_fallbacks 1) ∧
      random_choice maxim_fallbacks 1 ∈ maxim_fallbacks) :=
  generation_failure_fallback ⟨GroupChatCfg.unset, 7, false⟩ "2026-10-12"
    ⟨5, 1, "самуил!", false, "u"⟩ ⟨mkRat 1 2, 1, some "x"⟩ initial_bot_state rfl

/-- C6: for an addressed message from a sender other than the configured
primary subject whose lower-cased text does not contain the primary
subject's display name, the system prompt supplied to the backend is
exactly the base persona text, which contains no part of the biography
block. -/
theorem base_prompt_for_secondary (cfg : Config) (todayStr : String)
    (msg : Msg) (rand : Rand) (st : BotState)
    (hpass : passes_group_filter cfg msg.chatId = true)
    (haddr : msg.isReplyToBot = true ∨ containsSub "самуил" (str_lower msg.text) = true)
    (hid : msg.userId ≠ cfg.targetUserId)
    (hname : containsSub "максим" (str_lower msg.text) = false) :
    (handle_group_message cfg todayStr msg rand st).systemPrompt = some samuil_base ∧
    containsSub "=== КОНТЕКСТ ПРО МАКСИМА ===" samuil_base = false := by
  have hcond : (msg.isReplyToBot || containsSub "самуил" (str_lower msg.text)) = true := by
    rcases haddr with h | h <;> simp [h]
  have hsp : (generate_samuil_answer cfg msg.userId msg.text
      (st.dialogHistory (msg.chatId, msg.userId)) rand.backend).systemPrompt
        = samuil_base := by
    rw [generate_samuil_answer_systemPrompt]
    have h1 : (msg.userId == cfg.targetUserId) = false := by
      simp [hid]
    rw [h1, hname]
    rfl
  refine ⟨?_, by decide⟩
  cases hgt : (generate_samuil_answer cfg msg.userId msg.text
      (st.dialogHistory (msg.chatId, msg.userId)) rand.backend).text
  · rw [handle_red_addressed_fail cfg todayStr msg rand st hpass hcond hgt]
    simp [hsp]
  · rw [handle_red_addressed_ok cfg todayStr msg rand st _ hpass hcond hgt]
    simp [hsp]

/-- Witness for C6: sender `1` (not the target `7`) mentioning the bot
but not Maxim gets the plain base persona prompt. -/
theorem base_prompt_for_secondary_witness :
    (handle_group_message ⟨GroupChatCfg.unset, 7, true⟩ "2026-10-12"
        ⟨5, 1, "Самуил, привет", false, "u"⟩ ⟨mkRat 1 2, 0, some "привет"⟩
        initial_bot_state).systemPrompt = some samuil_base ∧
    containsSub "=== КОНТЕКСТ ПРО МАКСИМА ===" samuil_base = false :=
  base_prompt_for_secondary ⟨GroupChatCfg.unset, 7, true⟩ "2026-10-12"
    ⟨5, 1, "Самуил, привет", false, "u"⟩ ⟨mkRat 1 2, 0, some "привет"⟩
    initial_bot_state rfl (Or.inr (by decide)) (by decide) (by decide)

/-- C10: a group message from the configured (non-zero) primary-subject
sender that neither mentions the bot nor replies to it is answered only
probabilistically: a draw below 0.2 makes the handler return with nothing
sent (the message is still recorded in the daily summary log), while a
draw at or above 0.2 runs the sarcastic branch and something is sent. -/
theorem maxim_reply_probabilistic (cfg : Config) (todayStr : String)
    (msg : Msg) (rand : Rand) (st : BotState)
    (hpass : passes_group_filter cfg msg.chatId = true)
    (htu : cfg.targetUserId ≠ 0)
    (hid : msg.userId = cfg.targetUserId)
    (hrep : msg.isReplyToBot = false)
    (hmen : containsSub "самуил" (str_lower msg.text) = false) :
    (rand.draw < mkRat 1 5 →
      (handle_group_message cfg todayStr msg rand st).sent = none ∧
      (handle_group_message cfg todayStr msg rand st).branch = Branch.skipped ∧
      (handle_group_message cfg todayStr msg rand st).state.dailySummaryLog todayStr
        = st.dailySummaryLog todayStr ++ [msg.authorName ++ ": " ++ msg.text]) ∧
    (¬ rand.draw < mkRat 1 5 →
      (handle_group_message cfg todayStr msg rand st).branch = Branch.sarcastic ∧
      ((handle_group_message cfg todayStr msg rand st).sent).isSome = true ∧
      (handle_group_message cfg todayStr msg rand st).state.dailySummaryLog todayStr
        = st.dailySummaryLog todayStr ++ [msg.authorName ++ ": " ++ msg.text]) := by
  have hcond : (msg.isReplyToBot || containsSub "самуил" (str_lower msg.text)) = false := by
    rw [hrep, hmen]
    rfl
  have hmx : ((cfg.targetUserId != 0) && (msg.userId == cfg.targetUserId)) = true := by
    simp [bne_iff_ne, htu, hid]
  constructor
  · intro hdraw
    rw [handle_red_skip cfg todayStr msg rand st hpass hcond hmx hdraw]
    exact ⟨rfl, rfl, by simp [logged_state]⟩
  · intro hdraw
    cases hgen : (call_openai_chat cfg.clientConfigured rand.backend).1
    · rw [handle_red_sarcastic_fail cfg todayStr msg rand st hpass hcond hmx hdraw hgen]
      exact ⟨rfl, rfl, by simp [logged_state]⟩
    · rw [handle_red_sarcastic_ok cfg todayStr msg rand st _ hpass hcond hmx hdraw hgen]
      exact ⟨rfl, rfl, by simp [logged_state]⟩

/-- Witness for C10: the target user's plain message with draw `1/10`. -/
theorem maxim_reply_probabilistic_witness :
    (mkRat 1 10 < mkRat 1 5 →
      (handle_group_message ⟨GroupChatCfg.unset, 7, true⟩ "2026-10-12"
          ⟨5, 7, "устал", false, "maxim"⟩ ⟨mkRat 1 10, 0, some "ха"⟩
          initial_bot_state).sent = none ∧
      (handle_group_message ⟨GroupChatCfg.unset, 7, true⟩ "2026-10-12"
          ⟨5, 7, "устал", false, "maxim"⟩ ⟨mkRat 1 10, 0, some "ха"⟩
          initial_bot_state).branch = Branch.skipped ∧
      (handle_group_message ⟨GroupChatCfg.unset, 7, true⟩ "2026-10-12"
          ⟨5, 7, "устал", false, "maxim"⟩ ⟨mkRat 1 10, 0, some "ха"⟩
          initial_bot_state).state.dailySummaryLog "2026-10-12"
        = initial_bot_state.dailySummaryLog "2026-10-12" ++ ["maxim" ++ ": " ++ "устал"]) ∧
    (¬ mkRat 1 10 < mkRat 1 5 →
      (handle_group_message ⟨GroupChatCfg.unset, 7, true⟩ "2026-10-12"
          ⟨5, 7, "устал", false, "maxim"⟩ ⟨mkRat 1 10, 0, some "ха"⟩
          initial_bot_state).branch = Branch.sarcastic ∧
      ((handle_group_message ⟨GroupChatCfg.unset, 7, true⟩ "2026-10-12"
          ⟨5, 7, "устал", false, "maxim"⟩ ⟨mkRat 1 10, 0, some "ха"⟩
          initial_bot_state).sent).isSome = true ∧
      (handle_group_message ⟨GroupChatCfg.unset, 7, true⟩ "2026-10-12"
          ⟨5, 7, "устал", false, "maxim"⟩ ⟨mkRat 1 10, 0, some "ха"⟩
          initial_bot_state).state.dailySummaryLog "2026-10-12"
        = initial_bot_state.dailySummaryLog "2026-10-12" ++ ["maxim" ++ ": " ++ "устал"]) :=
  maxim_reply_probabilistic ⟨GroupChatCfg.unset, 7, true⟩ "2026-10-12"
    ⟨5, 7, "устал", false, "maxim"⟩ ⟨mkRat 1 10, 0, some "ха"⟩
    initial_bot_state rfl (by decide) rfl rfl (by decide)

/-- C9 counterexample: the claim that a message whose text is empty after
whitespace trimming is never dispatched and never answered is false of
the code — the whitespace-only text `" "` from the primary-subject sender
in the matching target group is answered, and the private echo handler
replies to it as well. -/
theorem whitespace_message_answered :
    (" ").data.all Char.isWhitespace = true ∧
    (handle_group_message ⟨GroupChatCfg.target 5, 7, true⟩ "2026-10-12"
        ⟨5, 7, " ", false, "maxim"⟩ ⟨mkRat 1 2, 0, some "ответ"⟩
        initial_bot_state).sent = some "ответ" ∧
    echo_private ChatType.privateChat (some " ") = some "Ты написал:  " := by
  exact ⟨by decide, by decide, by decide⟩

/-- C9 amended: neither handler tests for empty-after-trim text, so such
messages are dispatched like any other — the private echo handler replies
to every message, and in the group a whitespace-only message from the
primary-subject sender is logged and (when the random draw does not skip
and the generation call succeeds) answered.  The hypothesis that the text
is whitespace-only is never used by the proof: no part of the code
branches on it. -/
theorem no_empty_text_check (cfg : Config) (todayStr : String) (msg : Msg)
    (rand : Rand) (st : BotState) (a : String)
    (hws : msg.text.data.all Char.isWhitespace = true)
    (hpass : passes_group_filter cfg msg.chatId = true)
    (htu : cfg.targetUserId ≠ 0)
    (hid : msg.userId = cfg.targetUserId)
    (hrep : msg.isReplyToBot = false)
    (hmen : containsSub "самуил" (str_lower msg.text) = false)
    (hdraw : ¬ rand.draw < mkRat 1 5)
    (hclient : cfg.clientConfigured = true)
    (hbackend : rand.backend = some a) :
    echo_private ChatType.privateChat (some msg.text)
        = some ("Ты написал: " ++ msg.text) ∧
    (handle_group_message cfg todayStr msg rand st).sent = some a ∧
    (handle_group_message cfg todayStr msg rand st).state.dailySummaryLog todayStr
      = st.dailySummaryLog todayStr ++ [msg.authorName ++ ": " ++ msg.text] := by
  have hcond : (msg.isReplyToBot || containsSub "самуил" (str_lower msg.text)) = false := by
    rw [hrep, hmen]
    rfl
  have hmx : ((cfg.targetUserId != 0) && (msg.userId == cfg.targetUserId)) = true := by
    simp [bne_iff_ne, htu, hid]
  have hgen : (call_openai_chat cfg.clientConfigured rand.backend).1 = some a := by
    unfold call_openai_chat
    rw [hclient, hbackend]
    simp
  rw [handle_red_sarcastic_ok cfg todayStr msg rand st a hpass hcond hmx hdraw hgen]
  exact ⟨rfl, rfl, by simp [logged_state]⟩

/-- Witness for C9 amended: the whitespace-only text `" "` is echoed in
private and answered in the group. -/
theorem no_empty_text_check_witness :
    echo_private ChatType.privateChat (some (" "))
        = some ("Ты написал: " ++ " ") ∧
    (handle_group_message ⟨GroupChatCfg.target 5, 7, true⟩ "2026-10-12"
        ⟨5, 7, " ", false, "maxim"⟩ ⟨mkRat 1 2, 0, some "ответ"⟩
        initial_bot_state).sent = some "ответ" ∧
    (handle_group_message ⟨GroupChatCfg.target 5, 7, true⟩ "2026-10-12"
        ⟨5, 7, " ", false, "maxim"⟩ ⟨mkRat 1 2, 0, some "ответ"⟩
        initial_bot_state).state.dailySummaryLog "2026-10-12"
      = initial_bot_state.dailySummaryLog "2026-10-12" ++ ["maxim" ++ ": " ++ " "] :=
  no_empty_text_check ⟨GroupChatCfg.target 5, 7, true⟩ "2026-10-12"
    ⟨5, 7, " ", false, "maxim"⟩ ⟨mkRat 1 2, 0, some "ответ"⟩ initial_bot_state
    "ответ" (by decide) (by decide) (by decide) rfl rfl (by decide) (by decide)
    rfl rfl

end Bot
